import Mathlib

/-!
Verification of the spending-transaction-monitor ingestion/consumption
pipeline.  The definitions below are a shallow embedding of
`src/packages/api/src/services/kafka_consumer.py` (consumer side) and
`src/packages/ingestion-service/ingestion-service-py/main.py`
(connection manager).  Machine-level effects (database session, Kafka
client) are modelled by explicit state passing; monetary amounts are
modelled as rationals; Python `datetime` values are modelled by a record
of their components.
-/

namespace SpendingMonitor

/-- A Python `datetime` value as produced by
`datetime.combine(datetime(year, month, day).date(), time(hour, minute))`:
seconds and microseconds are zero. -/
structure PyDateTime where
  year : Int
  month : Int
  day : Int
  hour : Int
  minute : Int
deriving DecidableEq

/-- Gregorian leap-year rule used by Python `datetime`. -/
def isLeapYear (y : Int) : Bool :=
  (y % 4 == 0 && y % 100 != 0) || (y % 400 == 0)

/-- Number of days in a month, as enforced by the `datetime(year, month, day)`
constructor. -/
def daysInMonth (y m : Int) : Int :=
  if m = 2 then (if isLeapYear y then 29 else 28)
  else if m = 4 ∨ m = 6 ∨ m = 9 ∨ m = 11 then 30
  else 31

/-- Left-pad a component to two digits, as Python `isoformat` does. -/
def pad2 (n : Int) : String :=
  if n < 10 then "0" ++ n.repr else n.repr

/-- `datetime.isoformat()` for a value with zero seconds/microseconds:
`YYYY-MM-DDTHH:MM:SS`. -/
def PyDateTime.isoformat (d : PyDateTime) : String :=
  d.year.repr ++ "-" ++ pad2 d.month ++ "-" ++ pad2 d.day ++ "T"
    ++ pad2 d.hour ++ ":" ++ pad2 d.minute ++ ":00"

/-- The raw ingestion-service payload as consumed from the topic
(JSON object; absent keys are `none`).  Field types follow the
producer-side `Transaction` wire model: numeric user/card ids, numeric
calendar fields, a time-of-day string, numeric amount, merchant
attributes, an optional `errors` string and a fraud flag. -/
structure RawEvent where
  user : Option Int := none
  card : Option Int := none
  year : Option Int := none
  month : Option Int := none
  day : Option Int := none
  time : Option String := none
  amount : Option Rat := none
  use_chip : Option String := none
  merchant_id : Option Int := none
  merchant_city : Option String := none
  merchant_state : Option String := none
  zip : Option String := none
  mcc : Option Int := none
  errors : Option String := none
  is_fraud : Option Bool := none
deriving DecidableEq

/-- The dictionary built by
`TransactionKafkaConsumer._transform_ingestion_format`.  The
`transactionDate` entry is stored in the source as the isoformat string
of the combined datetime; since `isoformat`/`fromisoformat` are inverse,
it is modelled here as the datetime value itself. -/
structure TransformedData where
  id : String
  userId : String
  creditCardId : String
  amount : Rat
  currency : String
  description : String
  merchantName : String
  merchantCategory : String
  transactionDate : PyDateTime
  transactionType : String
  status : String
  merchantLocation : Option String
  merchantCity : Option String
  merchantState : Option String
  merchantCountry : String
  authorizationCode : Option String
  referenceNumber : Option String
  useChip : Option String
  zipCode : Option String
  isFraud : Bool
  errors : Option String
deriving DecidableEq

/-- Python `str(message_data.get(k))` on an optional int: `str(None)` is
the literal string `"None"`. -/
def pyStrOptInt : Option Int → String
  | some n => n.repr
  | none => "None"

/-- Python `str.split(sep)` over the underlying character list
(structural recursion, so that concrete runs reduce in the kernel). -/
def pySplitChars (sep : Char) : List Char → List (List Char)
  | [] => [[]]
  | c :: rest =>
    match pySplitChars sep rest with
    | [] => [[c]]
    | g :: gs => if c = sep then [] :: g :: gs else (c :: g) :: gs

/-- Python `str.split(sep)` for a one-character separator. -/
def pySplit (s : String) (sep : Char) : List String :=
  (pySplitChars sep s.data).map String.mk

/-- Accumulating decimal-digit parser for `pyInt`. -/
def digitsToNatAux : List Char → Nat → Option Nat
  | [], acc => some acc
  | c :: rest, acc =>
      if c.isDigit then digitsToNatAux rest (acc * 10 + (c.toNat - 48)) else none

/-- Python `int(s)` on a plain literal: an optional sign followed by at
least one decimal digit; anything else raises `ValueError`, modelled by
`none`. -/
def pyInt (s : String) : Option Int :=
  match s.data with
  | [] => none
  | '-' :: [] => none
  | '-' :: rest => (digitsToNatAux rest 0).map (fun n => -(n : Int))
  | '+' :: [] => none
  | '+' :: rest => (digitsToNatAux rest 0).map (fun n => (n : Int))
  | l => (digitsToNatAux l 0).map (fun n => (n : Int))

/-- Parsing of the `"time"` entry:
`time_parts = time_obj.split(":")`, a length check, `int(...)` on the
first two parts (a Python `ValueError` when a part is not an integer
literal), then the `time(hour, minute)` constructor (a `ValueError`
unless `0 <= hour <= 23` and `0 <= minute <= 59`). -/
def parseTimeString (s : String) : Except String (Int × Int) :=
  let parts := pySplit s ':'
  if parts.length < 2 then
    .error ("Invalid time format: " ++ s)
  else
    match pyInt (parts.getD 0 ""), pyInt (parts.getD 1 "") with
    | some hour, some minute =>
        if 0 ≤ hour ∧ hour ≤ 23 ∧ 0 ≤ minute ∧ minute ≤ 59 then
          .ok (hour, minute)
        else
          .error "hour must be in 0..23 and minute must be in 0..59"
    | _, _ => .error ("invalid literal for int with base 10 in time: " ++ s)

/-- `TransactionKafkaConsumer._transform_ingestion_format`.  The fresh
identifier produced by `uuid.uuid4()` is passed in as `freshId`; every
`raise ValueError` branch of the source (including the implicit raises
from `int(...)` and `time(...)`) becomes an `Except.error`. -/
def transformIngestionFormat (m : RawEvent) (freshId : String) :
    Except String TransformedData :=
  match m.year, m.month, m.day, m.time with
  | none, _, _, _ => .error "Missing required date field: year"
  | _, none, _, _ => .error "Missing required date field: month"
  | _, _, none, _ => .error "Missing required date field: day"
  | _, _, _, none => .error "Missing required date field: time"
  | some year, some month, some day, some timeStr =>
    match parseTimeString timeStr with
    | .error e => .error e
    | .ok (hour, minute) =>
      if year < 1900 ∨ 2100 < year then
        .error "Invalid year. Must be between 1900 and 2100"
      else if month < 1 ∨ 12 < month then
        .error "Invalid month. Must be between 1 and 12"
      else if day < 1 ∨ 31 < day then
        .error "Invalid day. Must be between 1 and 31"
      else if daysInMonth year month < day then
        .error "Invalid date combination"
      else
        .ok {
          id := freshId
          userId := pyStrOptInt m.user
          creditCardId := pyStrOptInt m.card
          amount := m.amount.getD 0
          currency := "USD"
          description := "Transaction at " ++
            (match m.merchant_id with
             | some mid => mid.repr
             | none => "Unknown Merchant")
          merchantName :=
            (match m.merchant_id with
             | some mid => mid.repr
             | none => "Unknown Merchant")
          merchantCategory :=
            (match m.mcc with
             | some c => c.repr
             | none => "UNKNOWN")
          transactionDate := ⟨year, month, day, hour, minute⟩
          transactionType := "PURCHASE"
          status := "PENDING"
          merchantLocation := none
          merchantCity := m.merchant_city
          merchantState := m.merchant_state
          merchantCountry := "US"
          authorizationCode := none
          referenceNumber := none
          useChip := m.use_chip
          zipCode := m.zip
          isFraud := m.is_fraud.getD false
          errors := m.errors }

/-- Modelled from the spec: the store-side CanonicalTransaction record
(the ORM `Transaction` model, which lives outside the embedded sources;
the spec describes it as carrying identifier, references, amount,
currency, date-time, type/status, merchant fields and passthrough
ingestion metadata).  A metadata field is `some v` when the insert
explicitly set it to `v`, and `none` when the insert left the column
unset. -/
structure StoredTransaction where
  id : String
  userId : String
  creditCardId : String
  amount : Rat
  currency : String
  description : String
  merchantName : String
  merchantCategory : String
  transactionDate : PyDateTime
  transactionType : String
  status : String
  merchantLocation : Option String
  merchantCity : Option String
  merchantState : Option String
  merchantCountry : String
  authorizationCode : Option String
  referenceNumber : Option String
  useChip : Option String
  zipCode : Option String
  isFraud : Option Bool
  errors : Option String
deriving DecidableEq

/-- The transactional store visible to the consumer: persisted
transactions, user ids, and credit cards as (card id, owner user id)
pairs. -/
structure Store where
  transactions : List StoredTransaction
  users : List String
  cards : List (String × String)
deriving DecidableEq

/-- `TransactionKafkaConsumer._check_existing_transaction`: a select on
the composite (userId, creditCardId, amount, transactionDate). -/
def checkExistingTransaction (s : Store) (td : TransformedData) :
    Option StoredTransaction :=
  s.transactions.find? (fun t =>
    decide (t.userId = td.userId ∧ t.creditCardId = td.creditCardId ∧
      t.amount = td.amount ∧ t.transactionDate = td.transactionDate))

/-- `TransactionKafkaConsumer._validate_user_and_card`: user exists,
card exists, and the card belongs to the user; each failure is a raised
`ValueError`. -/
def validateUserAndCard (s : Store) (td : TransformedData) :
    Except String Unit :=
  match s.users.find? (fun u => decide (u = td.userId)) with
  | none => .error ("User not found: " ++ td.userId)
  | some _ =>
    match s.cards.find? (fun c => decide (c.1 = td.creditCardId)) with
    | none => .error ("Credit card not found: " ++ td.creditCardId)
    | some card =>
      if card.2 ≠ td.userId then
        .error ("Credit card " ++ td.creditCardId ++
          " does not belong to user " ++ td.userId)
      else
        .ok ()

/-- `TransactionKafkaConsumer._create_transaction`: the record handed to
the ORM insert.  The source passes id, userId, creditCardId, amount,
currency, description, merchantName, merchantCategory, transactionDate,
transactionType, merchantLocation, merchantCity, merchantState,
merchantCountry, status, authorizationCode and referenceNumber, and does
not pass useChip, zipCode, isFraud or errors, which therefore stay
unset. -/
def createTransaction (td : TransformedData) : StoredTransaction :=
  { id := td.id
    userId := td.userId
    creditCardId := td.creditCardId
    amount := td.amount
    currency := td.currency
    description := td.description
    merchantName := td.merchantName
    merchantCategory := td.merchantCategory
    transactionDate := td.transactionDate
    transactionType := td.transactionType
    status := td.status
    merchantLocation := td.merchantLocation
    merchantCity := td.merchantCity
    merchantState := td.merchantState
    merchantCountry := td.merchantCountry
    authorizationCode := td.authorizationCode
    referenceNumber := td.referenceNumber
    useChip := none
    zipCode := none
    isFraud := none
    errors := none }

/-- What a single run of `_process_transaction_message` did. -/
inductive Outcome where
  | inserted
  | duplicate
  | transformError
  | referentialError
  | persistenceError
deriving DecidableEq

/-- Result of one run of the per-record handler: the store afterwards,
whether `self.consumer.commit()` ran for the record's offset, and which
branch was taken. -/
structure ProcResult where
  store : Store
  committed : Bool
  outcome : Outcome
deriving DecidableEq

/-- `TransactionKafkaConsumer._process_transaction_message` for one
record: transform, duplicate check, referential validation, insert,
offset commit.  `freshId` is the `uuid.uuid4()` draw of this run;
`insertOk` is whether the store-level insert/commit succeeds (fault
injection for PersistenceError).  On any raised error the session is
rolled back (store unchanged) and the offset is not committed. -/
def processTransactionMessage (s : Store) (m : RawEvent) (freshId : String)
    (insertOk : Bool) : ProcResult :=
  match transformIngestionFormat m freshId with
  | .error _ => ⟨s, false, .transformError⟩
  | .ok td =>
    match checkExistingTransaction s td with
    | some _ => ⟨s, true, .duplicate⟩
    | none =>
      match validateUserAndCard s td with
      | .error _ => ⟨s, false, .referentialError⟩
      | .ok _ =>
        if insertOk then
          ⟨{ s with transactions := s.transactions ++ [createTransaction td] },
            true, .inserted⟩
        else
          ⟨s, false, .persistenceError⟩

/-- `uuid.uuid4()` modelled as an injective supply of fresh identifier
strings indexed by a draw counter. -/
def uuidSupply (n : Nat) : String :=
  String.mk (List.replicate (n + 1) 'u')

/-- Mutable state of `KafkaConnectionManager`: the cached producer
handle (modelled by a numeric handle id) and `last_connection_attempt`
(initially `0`).  The configured constants keep their defaults:
`connection_cooldown = 30`, `retry_attempts = 3`, `retry_delay = 2`. -/
structure ConnState where
  producer : Option Nat
  lastConnectionAttempt : Int
deriving DecidableEq

/-- `KafkaConnectionManager.connection_cooldown` (seconds). -/
def connectionCooldown : Int := 30

/-- `KafkaConnectionManager.retry_attempts` (default). -/
def retryAttempts : Nat := 3

/-- `KafkaConnectionManager.retry_delay` (default, seconds). -/
def retryDelay : Int := 2

/-- Index of the first successful connection attempt of a
`_create_producer` call, among attempts `0, 1, ...` up to the retry
budget; `none` when every attempt in the budget fails. -/
def firstOkAttempt (attemptOk : Nat → Bool) (budget : Nat) : Option Nat :=
  (List.range budget).find? attemptOk

/-- How `get_producer` replied. -/
inductive GetProducerResult where
  | ok (handle : Nat)
  | cooldown503 (retryAfter : Int)
  | connectFail503
deriving DecidableEq

/-- One `get_producer` call: the state afterwards, the reply, and the
number of fresh connection attempts actually performed. -/
structure GetProducerOutcome where
  state : ConnState
  result : GetProducerResult
  attemptsMade : Nat
deriving DecidableEq

/-- `KafkaConnectionManager.get_producer`.  `currentTime` is the
`time.time()` reading at entry; `cachedHealthy` is the outcome of the
`bootstrap_connected()` probe on an existing cached producer;
`attemptOk i` is whether the `i`-th fresh connection attempt of
`_create_producer` succeeds; `newHandle` is the handle a successful
`_create_producer` returns.  The cycle is modelled as instantaneous:
`last_connection_attempt` is stamped with `currentTime` (the source
stamps it before attempting). -/
def getProducer (st : ConnState) (currentTime : Int) (cachedHealthy : Bool)
    (attemptOk : Nat → Bool) (newHandle : Nat) : GetProducerOutcome :=
  match st.producer, cachedHealthy with
  | some h, true => ⟨st, .ok h, 0⟩
  | _, _ =>
    let st1 : ConnState := { st with producer := none }
    if currentTime - st.lastConnectionAttempt < connectionCooldown then
      ⟨st1,
        .cooldown503 (connectionCooldown -
          (currentTime - st.lastConnectionAttempt)), 0⟩
    else
      let st2 : ConnState := { st1 with lastConnectionAttempt := currentTime }
      match firstOkAttempt attemptOk retryAttempts with
      | some i => ⟨{ st2 with producer := some newHandle }, .ok newHandle, i + 1⟩
      | none => ⟨st2, .connectFail503, retryAttempts⟩

/-- The dictionary returned by `KafkaConnectionManager.health_check`. -/
structure HealthReport where
  kafka_status : String
  kafka_host : String
  connection_state : String
  error : Option String
deriving DecidableEq

/-- `KafkaConnectionManager.health_check`.  With no cached producer it
builds a throwaway producer via `_create_producer` and closes it; with a
cached one it probes it with `bootstrap_connected()`.  It never writes
`self.producer` or `self.last_connection_attempt`, so the state is
returned unchanged. -/
def healthCheck (st : ConnState) (host : String) (cachedHealthy : Bool)
    (attemptOk : Nat → Bool) : ConnState × HealthReport :=
  match st.producer with
  | none =>
    match firstOkAttempt attemptOk retryAttempts with
    | some _ => (st, ⟨"healthy", host, "not_connected", none⟩)
    | none => (st, ⟨"unhealthy", host, "failed", some "connect error"⟩)
  | some _ =>
    if cachedHealthy then
      (st, ⟨"healthy", host, "connected", none⟩)
    else
      (st, ⟨"unhealthy", host, "failed", some "probe error"⟩)

/-- The end-to-end scenario event of the spec:
`{user:1, card:7, year:2024, month:3, day:5, time:"09:15", amount:42.50,
merchant_id:999, mcc:5411, is_fraud:false}`. -/
def q425 : Rat := ⟨85, 2, by decide, by decide⟩

def ev8 : RawEvent :=
  { user := some 1, card := some 7, year := some 2024, month := some 3,
    day := some 5, time := some "09:15", amount := some q425,
    merchant_id := some 999, mcc := some 5411, is_fraud := some false }

/-- A store holding user `"1"` who owns card `"7"`, with no persisted
transactions. -/
def store0 : Store :=
  { transactions := [], users := ["1"], cards := [("7", "1")] }

/-- C1: for every record processed by the consumption loop, the offset
is committed exactly when the insert completed or the record was a
recognized duplicate; a transformation, referential or persistence error
never commits the offset, and rolls the store back unchanged. -/
theorem offset_commit_discipline (s : Store) (m : RawEvent) (freshId : String)
    (insertOk : Bool) :
    ((processTransactionMessage s m freshId insertOk).committed = true ↔
      (processTransactionMessage s m freshId insertOk).outcome = Outcome.inserted ∨
      (processTransactionMessage s m freshId insertOk).outcome = Outcome.duplicate) ∧
    ((processTransactionMessage s m freshId insertOk).committed = false →
      (processTransactionMessage s m freshId insertOk).store = s) ∧
    ((processTransactionMessage s m freshId insertOk).outcome = Outcome.duplicate →
      (processTransactionMessage s m freshId insertOk).store = s) := by
  unfold processTransactionMessage
  split
  · simp
  · split
    · simp
    · split
      · simp
      · split <;> simp

/-- Witness for C1 at the concrete end-to-end event and store. -/
theorem offset_commit_discipline_witness :
    (processTransactionMessage store0 ev8 "u" true).committed = true :=
  (offset_commit_discipline store0 ev8 "u" true).1.mpr (Or.inl (by decide))

/-- Helper: a transform that succeeds under one fresh identifier
succeeds under any other, producing the same record up to the generated
id field. -/
theorem transform_id_swap {m : RawEvent} {fid₁ : String} {td : TransformedData}
    (fid₂ : String) (h : transformIngestionFormat m fid₁ = Except.ok td) :
    transformIngestionFormat m fid₂ = Except.ok { td with id := fid₂ } := by
  unfold transformIngestionFormat at h ⊢
  rcases m with ⟨user, card, year, month, day, tme, amount, uc, mid, mcity,
    mstate, zp, mcc, errs, fraud⟩
  cases year <;> cases month <;> cases day <;> cases tme <;> simp_all
  rename_i y mo d t
  cases hp : parseTimeString t with
  | error e =>
    rw [hp] at h
    simp at h
  | ok p =>
    rcases p with ⟨hour, minute⟩
    rw [hp] at h
    dsimp only at h ⊢
    split_ifs at h ⊢
    injection h with h'
    subst h'
    rfl

/-- Helper: the shape of a run whose outcome was `inserted`. -/
theorem process_inserted_eq {s : Store} {m : RawEvent} {fid : String}
    {insertOk : Bool}
    (h : (processTransactionMessage s m fid insertOk).outcome = Outcome.inserted) :
    ∃ td, transformIngestionFormat m fid = Except.ok td ∧
      checkExistingTransaction s td = none ∧
      validateUserAndCard s td = Except.ok () ∧
      processTransactionMessage s m fid insertOk =
        ⟨{ s with transactions := s.transactions ++ [createTransaction td] },
          true, Outcome.inserted⟩ := by
  unfold processTransactionMessage at h ⊢
  split at h
  · simp at h
  · rename_i td htd
    refine ⟨td, htd, ?_⟩
    split at h
    · simp at h
    · rename_i hchk
      refine ⟨hchk, ?_⟩
      split at h
      · simp at h
      · rename_i u hval
        cases u
        refine ⟨hval, ?_⟩
        split at h
        · rename_i hins
          simp [hins]
        · simp at h

/-- Helper: the dedup composite key ignores the generated id. -/
theorem checkExisting_id_irrel (s : Store) (td : TransformedData) (fid : String) :
    checkExistingTransaction s { td with id := fid } =
      checkExistingTransaction s td := rfl

/-- C2: processing the same raw event a second time (redelivery after a
crash before offset commit) finds the prior record through the
(user, card, amount, transaction timestamp) composite, commits the
offset, and returns without inserting again: the store keeps exactly the
one transaction the first run persisted. -/
theorem idempotent_redelivery (s : Store) (m : RawEvent) (fid₁ fid₂ : String)
    (insertOk₂ : Bool)
    (h : (processTransactionMessage s m fid₁ true).outcome = Outcome.inserted) :
    processTransactionMessage (processTransactionMessage s m fid₁ true).store m
        fid₂ insertOk₂ =
      ⟨(processTransactionMessage s m fid₁ true).store, true, Outcome.duplicate⟩ ∧
    (processTransactionMessage s m fid₁ true).store.transactions.length =
      s.transactions.length + 1 := by
  obtain ⟨td, htd, hchk, hval, heq⟩ := process_inserted_eq h
  rw [heq]
  refine ⟨?_, by simp⟩
  have hfind : checkExistingTransaction
      { s with transactions := s.transactions ++ [createTransaction td] }
      { td with id := fid₂ } = some (createTransaction td) := by
    rw [checkExisting_id_irrel]
    unfold checkExistingTransaction at hchk ⊢
    dsimp only
    rw [List.find?_append, hchk, Option.none_or]
    simp [createTransaction]
  unfold processTransactionMessage
  rw [transform_id_swap fid₂ htd]
  dsimp only
  rw [hfind]

/-- Witness for C2: the end-to-end event redelivered once against the
concrete store. -/
theorem idempotent_redelivery_witness :
    processTransactionMessage
        (processTransactionMessage store0 ev8 (uuidSupply 0) true).store ev8
        (uuidSupply 1) true =
      ⟨(processTransactionMessage store0 ev8 (uuidSupply 0) true).store, true,
        Outcome.duplicate⟩ :=
  (idempotent_redelivery store0 ev8 (uuidSupply 0) (uuidSupply 1) true
    (by decide)).1

/-- Helper: a successful transform fixes the passthrough and reference
fields of the produced record directly from the raw event. -/
theorem transform_ok_shape {m : RawEvent} {fid : String} {td : TransformedData}
    (h : transformIngestionFormat m fid = Except.ok td) :
    td.id = fid ∧ td.userId = pyStrOptInt m.user ∧
    td.creditCardId = pyStrOptInt m.card ∧ td.amount = m.amount.getD 0 ∧
    td.useChip = m.use_chip ∧ td.zipCode = m.zip ∧
    td.isFraud = m.is_fraud.getD false ∧ td.errors = m.errors ∧
    td.currency = "USD" ∧ td.transactionType = "PURCHASE" ∧
    td.status = "PENDING" ∧ td.merchantCountry = "US" := by
  unfold transformIngestionFormat at h
  rcases m with ⟨user, card, year, month, day, tme, amount, uc, mid, mcity,
    mstate, zp, mcc, errs, fraud⟩
  cases year <;> cases month <;> cases day <;> cases tme <;> simp_all
  rename_i y mo d t
  cases hp : parseTimeString t with
  | error e =>
    rw [hp] at h
    simp at h
  | ok p =>
    rcases p with ⟨hour, minute⟩
    rw [hp] at h
    dsimp only at h
    split_ifs at h
    injection h with h'
    subst h'
    exact ⟨rfl, rfl, rfl, rfl, rfl, rfl, rfl, rfl, rfl, rfl, rfl, rfl⟩

/-- C5: a raw event whose referenced user does not exist, or whose
referenced card does not exist, or whose card belongs to a different
user, raises a referential error: the store is rolled back unchanged and
the offset is not committed. -/
theorem referential_rejection (s : Store) (m : RawEvent) (fid : String)
    (insertOk : Bool)
    (hok : (transformIngestionFormat m fid).isOk = true)
    (hnodup : ∀ td, transformIngestionFormat m fid = Except.ok td →
      checkExistingTransaction s td = none)
    (hbad : s.users.find? (fun u => decide (u = pyStrOptInt m.user)) = none ∨
      s.cards.find? (fun c => decide (c.1 = pyStrOptInt m.card)) = none ∨
      (∃ c, s.cards.find? (fun c => decide (c.1 = pyStrOptInt m.card)) = some c ∧
        c.2 ≠ pyStrOptInt m.user)) :
    processTransactionMessage s m fid insertOk =
      ⟨s, false, Outcome.referentialError⟩ := by
  cases htr : transformIngestionFormat m fid with
  | error e => rw [htr] at hok; simp [Except.isOk, Except.toBool] at hok
  | ok td =>
    obtain ⟨-, hu, hc, -⟩ := transform_ok_shape htr
    rw [← hu] at hbad
    rw [← hc] at hbad
    have hv : validateUserAndCard s td = Except.error "" ∨
        ∀ r, validateUserAndCard s td ≠ Except.ok r := by
      right
      intro r hvr
      unfold validateUserAndCard at hvr
      rcases hbad with hb | hb | ⟨c, hcf, hne⟩
      · rw [hb] at hvr; simp at hvr
      · rw [hb] at hvr
        split at hvr
        · simp at hvr
        · simp at hvr
      · rw [hcf] at hvr
        split at hvr
        · simp at hvr
        · dsimp only at hvr
          rw [if_pos hne] at hvr
          simp at hvr
    unfold processTransactionMessage
    rw [htr]
    dsimp only
    rw [hnodup td htr]
    dsimp only
    cases hve : validateUserAndCard s td with
    | error e => rfl
    | ok u =>
      rcases hv with hv | hv
      · rw [hve] at hv; simp at hv
      · exact absurd hve (hv u)

/-- The end-to-end event with its user reference changed to the
nonexistent user 2. -/
def ev5 : RawEvent := { ev8 with user := some 2 }

/-- Witness for C5: the concrete store knows no user "2". -/
theorem referential_rejection_witness :
    processTransactionMessage store0 ev5 "u" true =
      ⟨store0, false, Outcome.referentialError⟩ :=
  referential_rejection store0 ev5 "u" true (by decide)
    (fun td _ => rfl) (Or.inl (by decide))

/-- The end-to-end event enriched with all four passthrough metadata
fields. -/
def ev6 : RawEvent :=
  { ev8 with
    use_chip := some "Chip Transaction"
    zip := some "91750"
    errors := some "Technical Glitch"
    is_fraud := some true }

/-- A syntactic default record (only used as a `getD` fallback). -/
def fallbackTD : TransformedData :=
  { id := "", userId := "", creditCardId := "", amount := 0, currency := "",
    description := "", merchantName := "", merchantCategory := "",
    transactionDate := ⟨0, 0, 0, 0, 0⟩, transactionType := "", status := "",
    merchantLocation := none, merchantCity := none, merchantState := none,
    merchantCountry := "", authorizationCode := none, referenceNumber := none,
    useChip := none, zipCode := none, isFraud := false, errors := none }

/-- The record a successful transform yields. -/
def tdOf (m : RawEvent) (fid : String) : TransformedData :=
  (transformIngestionFormat m fid).toOption.getD fallbackTD

/-- Counterexample to C6: for a raw event carrying chip-use, zip, fraud
and error metadata, the handler inserts a transaction, yet the persisted
record has none of the four metadata fields set — `_create_transaction`
never passes them to the insert. -/
theorem metadata_passthrough_counterexample :
    (processTransactionMessage store0 ev6 "u" true).outcome = Outcome.inserted ∧
    ev6.is_fraud = some true ∧ ev6.use_chip = some "Chip Transaction" ∧
    ev6.zip = some "91750" ∧ ev6.errors = some "Technical Glitch" ∧
    ((processTransactionMessage store0 ev6 "u" true).store.transactions.head?.map
      StoredTransaction.isFraud) = some none ∧
    ((processTransactionMessage store0 ev6 "u" true).store.transactions.head?.map
      StoredTransaction.useChip) = some none ∧
    ((processTransactionMessage store0 ev6 "u" true).store.transactions.head?.map
      StoredTransaction.zipCode) = some none ∧
    ((processTransactionMessage store0 ev6 "u" true).store.transactions.head?.map
      StoredTransaction.errors) = some none := by
  decide

/-- C6 (amended): the transformed canonical record carries the
passthrough ingestion metadata from the raw event, but the record handed
to the store insert leaves all four metadata fields unset. -/
theorem metadata_passthrough_amended {m : RawEvent} {fid : String}
    {td : TransformedData} (h : transformIngestionFormat m fid = Except.ok td) :
    td.useChip = m.use_chip ∧ td.zipCode = m.zip ∧
    td.isFraud = m.is_fraud.getD false ∧ td.errors = m.errors ∧
    (createTransaction td).useChip = none ∧
    (createTransaction td).zipCode = none ∧
    (createTransaction td).isFraud = none ∧
    (createTransaction td).errors = none := by
  obtain ⟨-, -, -, -, h1, h2, h3, h4, -⟩ := transform_ok_shape h
  exact ⟨h1, h2, h3, h4, rfl, rfl, rfl, rfl⟩

/-- Witness for the amended C6 at the concrete metadata-bearing event. -/
theorem metadata_passthrough_amended_witness :
    (tdOf ev6 "u").isFraud = true ∧
    (createTransaction (tdOf ev6 "u")).isFraud = none := by
  obtain ⟨-, -, h3, -, -, -, h7, -⟩ :=
    @metadata_passthrough_amended ev6 "u" (tdOf ev6 "u") rfl
  exact ⟨h3.trans (by decide), h7⟩

/-- C10: the transform validates only the date and time fields.
Removing user, card and amount from a raw event never changes whether
the transform succeeds, and when it succeeds the defaults are amount
`0`, user reference `"None"` and card reference `"None"` (the failure is
deferred to the referential check). -/
theorem transform_lenient_defaults (m : RawEvent) (fid : String) :
    ((transformIngestionFormat
        { m with user := none, card := none, amount := none } fid).isOk =
      (transformIngestionFormat m fid).isOk) ∧
    (∀ td, transformIngestionFormat
        { m with user := none, card := none, amount := none } fid =
        Except.ok td →
      td.amount = 0 ∧ td.userId = "None" ∧ td.creditCardId = "None") := by
  constructor
  · rcases m with ⟨user, card, year, month, day, tme, amount, uc, mid, mcity,
      mstate, zp, mcc, errs, fraud⟩
    unfold transformIngestionFormat
    cases year <;> cases month <;> cases day <;> cases tme <;> try rfl
    dsimp only
    rename_i y mo d t
    cases hp : parseTimeString t with
    | error e => rfl
    | ok p =>
      rcases p with ⟨hour, minute⟩
      dsimp only
      split_ifs <;> rfl
  · intro td h
    obtain ⟨-, h2, h3, h4, -⟩ := transform_ok_shape h
    exact ⟨h4, h2, h3⟩

/-- The end-to-end event with user, card and amount removed. -/
def ev10 : RawEvent := { ev8 with user := none, card := none, amount := none }

/-- Witness for C10 at the concrete stripped event. -/
theorem transform_lenient_defaults_witness :
    (tdOf ev10 "u").amount = 0 ∧ (tdOf ev10 "u").userId = "None" ∧
    (tdOf ev10 "u").creditCardId = "None" :=
  (transform_lenient_defaults ev8 "u").2 (tdOf ev10 "u") rfl

/-- Counterexample to C7 as stated: two invocations of the transform on
the same valid raw event draw two fresh identifiers and therefore do not
produce equal canonical records (they differ in the generated id). -/
theorem transform_deterministic_counterexample :
    (transformIngestionFormat ev8 (uuidSupply 0)).isOk = true ∧
    (transformIngestionFormat ev8 (uuidSupply 1)).isOk = true ∧
    tdOf ev8 (uuidSupply 0) ≠ tdOf ev8 (uuidSupply 1) := by
  decide

/-- C7 (amended): on valid input the transform is total, performs no
store access, and is deterministic up to the generated identifier: two
successful invocations agree on every field except id. -/
theorem transform_deterministic_mod_id {m : RawEvent} {fid₁ fid₂ : String}
    {td₁ td₂ : TransformedData}
    (h₁ : transformIngestionFormat m fid₁ = Except.ok td₁)
    (h₂ : transformIngestionFormat m fid₂ = Except.ok td₂) :
    td₂ = { td₁ with id := fid₂ } := by
  have h := transform_id_swap fid₂ h₁
  rw [h₂] at h
  exact Except.ok.inj h

/-- Witness for the amended C7 at the concrete event. -/
theorem transform_deterministic_mod_id_witness :
    tdOf ev8 (uuidSupply 1) =
      { tdOf ev8 (uuidSupply 0) with id := uuidSupply 1 } :=
  @transform_deterministic_mod_id ev8 (uuidSupply 0) (uuidSupply 1)
    (tdOf ev8 (uuidSupply 0)) (tdOf ev8 (uuidSupply 1)) rfl rfl

/-- C8: transforming the end-to-end scenario event yields
transactionDate 2024-03-05T09:15:00, amount 42.50, type PURCHASE, status
PENDING, defaulted currency USD, and the freshly drawn identifier, which
differs from every other draw of the supply. -/
theorem end_to_end_scenario (n : Nat) :
    (transformIngestionFormat ev8 (uuidSupply n)).isOk = true ∧
    (tdOf ev8 (uuidSupply n)).transactionDate.isoformat =
      "2024-03-05T09:15:00" ∧
    (tdOf ev8 (uuidSupply n)).amount = 85/2 ∧
    (tdOf ev8 (uuidSupply n)).transactionType = "PURCHASE" ∧
    (tdOf ev8 (uuidSupply n)).status = "PENDING" ∧
    (tdOf ev8 (uuidSupply n)).currency = "USD" ∧
    (tdOf ev8 (uuidSupply n)).id = uuidSupply n ∧
    (∀ k, k ≠ n → uuidSupply k ≠ uuidSupply n) := by
  have h0 : transformIngestionFormat ev8 (uuidSupply 0) =
      Except.ok (tdOf ev8 (uuidSupply 0)) := rfl
  have hn := transform_id_swap (uuidSupply n) h0
  have htd : tdOf ev8 (uuidSupply n) =
      { tdOf ev8 (uuidSupply 0) with id := uuidSupply n } := by
    unfold tdOf
    rw [hn]
    rfl
  have hq : q425 = 85/2 := by
    rw [← Rat.num_div_den q425]
    norm_num [q425]
  have c1 : (transformIngestionFormat ev8 (uuidSupply n)).isOk = true := by
    rw [hn]
    rfl
  have c2 : (tdOf ev8 (uuidSupply n)).transactionDate.isoformat =
      "2024-03-05T09:15:00" := by
    rw [htd]
    show (tdOf ev8 (uuidSupply 0)).transactionDate.isoformat =
      "2024-03-05T09:15:00"
    decide
  have c3 : (tdOf ev8 (uuidSupply n)).amount = 85/2 := by
    rw [htd]
    exact hq
  have c4 : (tdOf ev8 (uuidSupply n)).transactionType = "PURCHASE" := by
    rw [htd]
    rfl
  have c5 : (tdOf ev8 (uuidSupply n)).status = "PENDING" := by
    rw [htd]
    rfl
  have c6 : (tdOf ev8 (uuidSupply n)).currency = "USD" := by
    rw [htd]
    rfl
  have c7 : (tdOf ev8 (uuidSupply n)).id = uuidSupply n := by
    rw [htd]
  refine ⟨c1, c2, c3, c4, c5, c6, c7, ?_⟩
  intro k hk h
  have h2 := congrArg (fun s => s.data.length) h
  simp [uuidSupply] at h2
  exact hk h2

/-- Witness for C8 discharging the distinctness hypothesis at draw 1
against draw 0. -/
theorem end_to_end_scenario_witness :
    (tdOf ev8 (uuidSupply 1)).amount = 85/2 ∧ uuidSupply 0 ≠ uuidSupply 1 := by
  obtain ⟨-, -, ham, -, -, -, -, hinj⟩ := end_to_end_scenario 1
  exact ⟨ham, hinj 0 (by decide)⟩

/-- The validation-failure condition exactly as the specification's
claim enumerates it: missing year/month/day/time, year outside
[1900, 2100], month outside [1, 12], day outside [1, 31], a time string
that does not contain at least hour and minute (fewer than two
colon-separated components), or a year/month/day combination that is not
a valid calendar date. -/
def claimedFailCond (m : RawEvent) : Bool :=
  m.year.isNone || m.month.isNone || m.day.isNone || m.time.isNone ||
  (match m.year with
   | some y => decide (y < 1900 ∨ 2100 < y)
   | none => false) ||
  (match m.month with
   | some mo => decide (mo < 1 ∨ 12 < mo)
   | none => false) ||
  (match m.day with
   | some d => decide (d < 1 ∨ 31 < d)
   | none => false) ||
  (match m.time with
   | some t => decide ((pySplit t ':').length < 2)
   | none => false) ||
  (match m.year, m.month, m.day with
   | some y, some mo, some d =>
     decide (¬(1 ≤ mo ∧ mo ≤ 12 ∧ 1 ≤ d ∧ d ≤ daysInMonth y mo))
   | _, _, _ => false)

/-- The failure cases the source has beyond the claim's list, for a time
string that does have two components: a component that is not an integer
literal, or an hour outside 0..23, or a minute outside 0..59. -/
def timeBadStr (t : String) : Bool :=
  let parts := pySplit t ':'
  if parts.length < 2 then false
  else
    match pyInt (parts.getD 0 ""), pyInt (parts.getD 1 "") with
    | some hour, some minute =>
      decide (¬(0 ≤ hour ∧ hour ≤ 23 ∧ 0 ≤ minute ∧ minute ≤ 59))
    | _, _ => true

/-- `timeBadStr` lifted to the optional time field. -/
def timeComponentsBad (m : RawEvent) : Bool :=
  match m.time with
  | some t => timeBadStr t
  | none => false

/-- Helper: classification of time-string parsing failures. -/
theorem parseTime_error_iff (t : String) :
    (parseTimeString t).isOk = false ↔
      ((pySplit t ':').length < 2 ∨ timeBadStr t = true) := by
  unfold parseTimeString timeBadStr
  by_cases hl : (pySplit t ':').length < 2
  · simp [hl, Except.isOk, Except.toBool]
  · simp only [hl, if_false, if_neg hl]
    cases pyInt ((pySplit t ':').getD 0 "") <;>
      cases pyInt ((pySplit t ':').getD 1 "") <;>
      simp [Except.isOk, Except.toBool, hl]
    split_ifs <;> simp_all [Except.isOk, Except.toBool]
    all_goals omega

/-- Helper: every month has at most 31 days. -/
theorem daysInMonth_le_31 (y mo : Int) : daysInMonth y mo ≤ 31 := by
  unfold daysInMonth
  split_ifs <;> omega

/-- C3 (amended): the transform fails with a validation error exactly
when the claim's enumerated conditions hold, or additionally when a time
component is not an integer literal or the parsed hour/minute lie
outside 0..23 / 0..59; and a failing record never reaches the store. -/
theorem validation_boundary_amended (m : RawEvent) (fid : String) :
    ((transformIngestionFormat m fid).isOk = false ↔
      (claimedFailCond m || timeComponentsBad m) = true) ∧
    ((claimedFailCond m || timeComponentsBad m) = true →
      ∀ s insertOk, processTransactionMessage s m fid insertOk =
        ⟨s, false, Outcome.transformError⟩) := by
  have hmain : (transformIngestionFormat m fid).isOk = false ↔
      (claimedFailCond m || timeComponentsBad m) = true := by
    rcases m with ⟨user, card, year, month, day, tme, amount, uc, mid, mcity,
      mstate, zp, mcc, errs, fraud⟩
    cases year <;> cases month <;> cases day <;> cases tme <;>
      simp_all [transformIngestionFormat, claimedFailCond, timeComponentsBad,
        Except.isOk, Except.toBool]
    rename_i y mo d t
    cases hpt : parseTimeString t with
    | error e =>
      have hbad : (pySplit t ':').length < 2 ∨ timeBadStr t = true :=
        (parseTime_error_iff t).mp (by rw [hpt]; rfl)
      simp [Except.isOk, Except.toBool]
      tauto
    | ok p =>
      rcases p with ⟨hour, minute⟩
      have hok : ¬((pySplit t ':').length < 2 ∨ timeBadStr t = true) := by
        rw [← parseTime_error_iff, hpt]
        simp [Except.isOk, Except.toBool]
      push_neg at hok
      obtain ⟨hlen, hbadf⟩ := hok
      simp only [Bool.not_eq_true] at hbadf
      have hlen2 : ¬((pySplit t ':').length < 2) := not_lt.mpr hlen
      dsimp only
      split_ifs with h1 h2 h3 h4 <;>
        simp [Except.isOk, Except.toBool, hbadf] <;>
        first
          | tauto
          | omega
  refine ⟨hmain, fun hc s insertOk => ?_⟩
  have hf := hmain.mpr hc
  cases htr : transformIngestionFormat m fid with
  | error e =>
    unfold processTransactionMessage
    rw [htr]
  | ok td =>
    rw [htr] at hf
    simp [Except.isOk, Except.toBool] at hf

/-- The end-to-end event with the out-of-range time string "25:00". -/
def ev3 : RawEvent := { ev8 with time := some "25:00" }

/-- Counterexample to C3 as stated: the event with time "25:00" has all
four date/time fields present, in-range date components, a time string
with two components and a valid calendar date — so the claim's failure
condition does not hold — yet the transform fails, because the `time`
constructor rejects hour 25. -/
theorem validation_boundary_counterexample :
    (transformIngestionFormat ev3 "u").isOk = false ∧
    claimedFailCond ev3 = false := by
  decide

/-- The end-to-end event with month 13. -/
def ev3b : RawEvent := { ev8 with month := some 13 }

/-- Witness for the amended C3 at the month-13 event. -/
theorem validation_boundary_amended_witness :
    processTransactionMessage store0 ev3b "u" true =
      ⟨store0, false, Outcome.transformError⟩ :=
  (validation_boundary_amended ev3b "u").2 (by decide) store0 true

/-- Counterexample to C4 as stated: a successful connection at time 100
caches a handle and stamps the attempt time; at time 110 the cached
handle probes unhealthy and — although no connection attempt has ever
failed (the broker accepts every attempt) — get_producer fails fast with
a cooldown rejection and performs zero fresh attempts.  The cooldown is
keyed on the time of the last connection cycle, not of the last failed
attempt. -/
theorem cooldown_counterexample :
    getProducer ⟨none, 0⟩ 100 true (fun _ => true) 1 =
      ⟨⟨some 1, 100⟩, GetProducerResult.ok 1, 1⟩ ∧
    getProducer ⟨some 1, 100⟩ 110 false (fun _ => true) 2 =
      ⟨⟨none, 100⟩, GetProducerResult.cooldown503 20, 0⟩ := by
  decide

/-- C4 (amended): with no healthy cached handle, get_producer fails fast
with a 503 cooldown rejection and performs no connection attempt
whenever less than the 30-second cooldown has elapsed since the last
connection cycle (stamped at its start, whether it succeeded or failed);
once the cooldown has elapsed it performs up to the budget of 3
attempts (configured 2 seconds apart) and, if every attempt fails,
raises a 503 connectivity failure, stamps the current time for cooldown
purposes and caches no handle. -/
theorem cooldown_and_retry_budget (st : ConnState) (t : Int)
    (cachedHealthy : Bool) (attemptOk : Nat → Bool) (h : Nat)
    (hnot : st.producer = none ∨ cachedHealthy = false) :
    (t - st.lastConnectionAttempt < connectionCooldown →
      getProducer st t cachedHealthy attemptOk h =
        ⟨⟨none, st.lastConnectionAttempt⟩,
          GetProducerResult.cooldown503
            (connectionCooldown - (t - st.lastConnectionAttempt)), 0⟩) ∧
    (connectionCooldown ≤ t - st.lastConnectionAttempt →
      ((∀ i, i < retryAttempts → attemptOk i = false) →
        getProducer st t cachedHealthy attemptOk h =
          ⟨⟨none, t⟩, GetProducerResult.connectFail503, retryAttempts⟩) ∧
      (getProducer st t cachedHealthy attemptOk h).attemptsMade ≤
        retryAttempts ∧
      (getProducer st t cachedHealthy attemptOk h).state.lastConnectionAttempt
        = t) ∧
    retryAttempts = 3 ∧ connectionCooldown = 30 ∧ retryDelay = 2 := by
  obtain ⟨prod, last⟩ := st
  dsimp only at hnot ⊢
  have hred : getProducer ⟨prod, last⟩ t cachedHealthy attemptOk h =
      (if t - last < connectionCooldown then
        ⟨⟨none, last⟩,
          GetProducerResult.cooldown503 (connectionCooldown - (t - last)), 0⟩
      else
        match firstOkAttempt attemptOk retryAttempts with
        | some i => ⟨⟨some h, t⟩, GetProducerResult.ok h, i + 1⟩
        | none => ⟨⟨none, t⟩, GetProducerResult.connectFail503,
            retryAttempts⟩) := by
    cases prod with
    | none => rfl
    | some hh =>
      rcases hnot with h1 | h1
      · simp at h1
      · subst h1
        rfl
  rw [hred]
  by_cases hcool : t - last < connectionCooldown
  · rw [if_pos hcool]
    refine ⟨fun _ => rfl, fun hc => absurd hcool (by omega), rfl, rfl, rfl⟩
  · rw [if_neg hcool]
    refine ⟨fun hc => absurd hc hcool, fun _ => ?_, rfl, rfl, rfl⟩
    refine ⟨fun hall => ?_, ?_, ?_⟩
    · have hfa : firstOkAttempt attemptOk retryAttempts = none := by
        unfold firstOkAttempt
        rw [List.find?_eq_none]
        intro x hx
        rw [List.mem_range] at hx
        rw [hall x hx]
        exact Bool.false_ne_true
      rw [hfa]
    · cases hfa : firstOkAttempt attemptOk retryAttempts with
      | none => simp
      | some i =>
        have hmem := List.mem_of_find?_eq_some hfa
        rw [List.mem_range] at hmem
        simp only
        omega
    · cases hfa : firstOkAttempt attemptOk retryAttempts with
      | none => rfl
      | some i => rfl

/-- Witness for the amended C4: broker down, cooldown long expired. -/
theorem cooldown_and_retry_budget_witness :
    getProducer ⟨none, 0⟩ 50 false (fun _ => false) 1 =
      ⟨⟨none, 50⟩, GetProducerResult.connectFail503, retryAttempts⟩ :=
  (((cooldown_and_retry_budget ⟨none, 0⟩ 50 false (fun _ => false) 1
    (Or.inl rfl)).2.1 (by decide)).1 (fun i _ => rfl))

/-- C9: with no cached producer handle, health_check leaves the manager
state unchanged (the cached handle is still absent afterwards), probes
with a throwaway producer, and reports a healthy or unhealthy status
together with the connection state and the broker host. -/
theorem health_check_frame (st : ConnState) (host : String)
    (cachedHealthy : Bool) (attemptOk : Nat → Bool)
    (hnone : st.producer = none) :
    (healthCheck st host cachedHealthy attemptOk).1 = st ∧
    (healthCheck st host cachedHealthy attemptOk).1.producer = none ∧
    ((healthCheck st host cachedHealthy attemptOk).2 =
        ⟨"healthy", host, "not_connected", none⟩ ∨
      (healthCheck st host cachedHealthy attemptOk).2 =
        ⟨"unhealthy", host, "failed", some "connect error"⟩) := by
  unfold healthCheck
  rw [hnone]
  cases firstOkAttempt attemptOk retryAttempts with
  | none => exact ⟨rfl, hnone, Or.inr rfl⟩
  | some i => exact ⟨rfl, hnone, Or.inl rfl⟩

/-- Witness for C9 at a concrete absent-handle state. -/
theorem health_check_frame_witness :
    (healthCheck ⟨none, 0⟩ "localhost:9092" true (fun _ => true)).1 =
      ⟨none, 0⟩ :=
  (health_check_frame ⟨none, 0⟩ "localhost:9092" true (fun _ => true) rfl).1

end SpendingMonitor
